import Mathlib

/-!
Shallow embedding of src/server.py (the Deeplink Check Forwarder, a FastMCP
tool named check_deeplink) and proofs about the claims of its specification.

Modelling conventions:

* The process environment is an `Option String`: the value of the
  REFRESH_TOKEN environment variable, or `none` when unset.
* The network is a function `HttpRequest -> UpstreamOutcome` supplied by the
  caller of the model; `UpstreamOutcome.response` carries the final HTTP
  status code, the raw body text, and the result of parsing that body as
  JSON (parsing itself is library code, so its outcome, including the decode
  error message, is part of the modelled environment).
* `requests` semantics embedded faithfully:
  - `Response.raise_for_status` raises `HTTPError` exactly when the status
    code is in 400..599; 1xx and 3xx codes do NOT raise.
  - `Response.json()` on an unparseable body raises
    `requests.exceptions.JSONDecodeError`, which since requests 2.27 is a
    subclass of `InvalidJSONError`, hence of `RequestException`, and also of
    `ValueError`. The except clauses of check_deeplink are tried in source
    order (HTTPError, RequestException, ValueError), so a JSON decode
    failure is caught by the RequestException clause at src/server.py:82,
    not by the ValueError clause at src/server.py:85.
  - Python `dict.get` returns the stored value when the key is present
    (even when that value is None) and the default only when absent.
  - Calling `.get` on a parsed JSON value that is not an object (a list,
    string, number, boolean or null) raises AttributeError, which no except
    clause of check_deeplink catches: it propagates unhandled.
* The function returns a `PyResult` (a returned Python value, or an
  unhandled exception) together with the list of HTTP requests it issued,
  so that absence of a network call is the empty list.
-/

namespace DeeplinkChecker

/-- JSON values as parsed by `Response.json()` into Python objects. -/
inductive Json where
  | null : Json
  | bool : Bool → Json
  | num : Int → Json
  | str : String → Json
  | arr : List Json → Json
  | obj : List (String × Json) → Json

/-- An outgoing HTTP request as issued by `requests.post` at
src/server.py:67: URL, header dict, JSON payload dict, timeout. -/
structure HttpRequest where
  url : String
  headers : List (String × String)
  payload : List (String × String)
  timeout : Nat
deriving DecidableEq

/-- What the network does for a request: either a final HTTP response
(status code, raw body text, and the outcome of JSON-parsing that body,
where `Except.error` carries the decode error message), or a
transport-level failure (connection refused, timeout, DNS failure) raising
a `RequestException` whose string form is `msg`. -/
inductive UpstreamOutcome where
  | response (statusCode : Nat) (text : String) (parsed : Except String Json)
  | transportError (msg : String)

/-- Result of running the Python function: a returned value, or an
unhandled exception escaping the function. -/
inductive PyResult where
  | ret (v : Json)
  | unhandled (exc : String)

/-- Fixed upstream endpoint, src/server.py:39. -/
def CHECK_URL : String := "https://intercom-api-gateway.moengage.com/v2/iw/check-deeplink"

/-- Return value at src/server.py:47 when the token is missing or empty. -/
def tokenMissingMsg : String := "Authentication token is not configured on the server."

/-- Return value at src/server.py:75 on an upstream success status. -/
def successMsg : String := "Urls are matching, your deeplink is working correctly at clients end"

/-- Default at src/server.py:77 when error_message is absent. -/
def unknownErrorMsg : String := "An unknown error occurred, and no error message was provided."

/-- Return value of the ValueError handler at src/server.py:87. -/
def jsonDecodeFallbackMsg : String := "Failed to decode the JSON response from the server."

/-- Return value of the RequestException handler at src/server.py:84. -/
def networkErrorMsg (cause : String) : String :=
  "An error occurred while checking the deeplink: " ++ cause

/-- Return value of the HTTPError handler at src/server.py:81. -/
def httpErrorMsg (statusCode : Nat) (text : String) : String :=
  "HTTP Error: " ++ toString statusCode ++ " - " ++ text

/-- Python type name of a parsed JSON value, as named by AttributeError. -/
def pyTypeName : Json → String
  | .null => "NoneType"
  | .bool _ => "bool"
  | .num _ => "int"
  | .str _ => "str"
  | .arr _ => "list"
  | .obj _ => "dict"

/-- Python `dict.get(key)`: the stored value, or None signalled as `none`. -/
def dictGet (fields : List (String × Json)) (key : String) : Option Json :=
  fields.lookup key

/-- Python `dict.get(key, default)`: the stored value when the key is
present, the default only when it is absent. -/
def dictGetD (fields : List (String × Json)) (key : String) (d : Json) : Json :=
  (dictGet fields key).getD d

/-- The test `response_data.get("status") == "success"` at src/server.py:74:
true exactly when the status key holds the string "success". -/
def isSuccessStatus : Option Json → Bool
  | some (.str s) => s == "success"
  | _ => false

/-- The request built at src/server.py:52-67: headers and payload dicts in
source order, posted to CHECK_URL with timeout 30. -/
def buildRequest (auth_token db_name user_id campaign_id date region : String) :
    HttpRequest :=
  ⟨CHECK_URL,
   [("Content-Type", "application/json"),
    ("Authorization", "Bearer " ++ auth_token)],
   [("db_name", db_name), ("user_id", user_id), ("campaign_id", campaign_id),
    ("date", date), ("region", region)],
   30⟩

/-- The try/except block at src/server.py:65-87, mapping the outcome of the
single POST to the returned value. A transport failure is caught by the
RequestException clause; `raise_for_status` raises HTTPError for status
codes 400..599, caught by the HTTPError clause; a JSON decode failure
raises `requests.exceptions.JSONDecodeError`, a RequestException subclass,
so the RequestException clause catches it before the ValueError clause is
reached; a parsed body that is not a dict makes `response_data.get` raise
an uncaught AttributeError. -/
def handle_outcome (o : UpstreamOutcome) : PyResult :=
  match o with
  | .transportError msg => .ret (.str (networkErrorMsg msg))
  | .response statusCode text parsed =>
    if 400 ≤ statusCode ∧ statusCode < 600 then
      .ret (.str (httpErrorMsg statusCode text))
    else
      match parsed with
      | .error msg => .ret (.str (networkErrorMsg msg))
      | .ok (.obj fields) =>
        if isSuccessStatus (dictGet fields "status") then
          .ret (.str successMsg)
        else
          .ret (dictGetD fields "error_message" (.str unknownErrorMsg))
      | .ok other =>
        .unhandled ("AttributeError: " ++ pyTypeName other
          ++ " object has no attribute get")

/-- The tool body check_deeplink at src/server.py:23-87. `refresh_token` is
`os.environ.get("REFRESH_TOKEN")`; the guard `if not auth_token` fires when
the variable is unset or holds the empty string. The second component is
the list of HTTP requests issued during the call. -/
def check_deeplink (refresh_token : Option String)
    (db_name user_id campaign_id date region : String)
    (upstream : HttpRequest → UpstreamOutcome) : PyResult × List HttpRequest :=
  match refresh_token with
  | none => (.ret (.str tokenMissingMsg), [])
  | some auth_token =>
    if auth_token = "" then
      (.ret (.str tokenMissingMsg), [])
    else
      let req := buildRequest auth_token db_name user_id campaign_id date region
      (handle_outcome (upstream req), [req])

/-- The five fields of the tool input schema, src/server.py:8-14 and the
tool signature at src/server.py:23. -/
structure DeeplinkCheckerInput where
  db_name : String
  user_id : String
  campaign_id : String
  date : String
  region : String
deriving DecidableEq

/-- The required field names of the schema, src/server.py:10-14. -/
def requiredFields : List String := ["db_name", "user_id", "campaign_id", "date", "region"]

/-- Whether a raw argument map supplies `key` as a string. -/
def fieldOk (args : List (String × Json)) (key : String) : Bool :=
  match args.lookup key with
  | some (.str _) => true
  | _ => false

/-- Models pydantic validation of the tool arguments against the schema of
src/server.py:8-14 and src/server.py:23: each of the five declared `str`
fields must be present and be a string (pydantic v2 does not coerce other
JSON types to str by default). No minimum length is declared anywhere, so
the empty string passes validation. On failure, the offending field names
are reported. -/
def validate_args (args : List (String × Json)) :
    Except (List String) DeeplinkCheckerInput :=
  match args.lookup "db_name", args.lookup "user_id", args.lookup "campaign_id",
        args.lookup "date", args.lookup "region" with
  | some (.str d), some (.str u), some (.str c), some (.str dt), some (.str r) =>
      .ok ⟨d, u, c, dt, r⟩
  | _, _, _, _, _ =>
      .error (requiredFields.filter (fun k => !(fieldOk args k)))

/-- Outcome of a tool invocation as the framework dispatches it: a
validation failure before the tool body runs, or the result of the body. -/
inductive ToolOutcome where
  | validationError (fields : List String)
  | executed (r : PyResult)

/-- A full tool call: the framework validates the raw arguments against the
schema; only on success does the tool body run. -/
def call_tool (env : Option String) (args : List (String × Json))
    (upstream : HttpRequest → UpstreamOutcome) : ToolOutcome × List HttpRequest :=
  match validate_args args with
  | .error fs => (.validationError fs, [])
  | .ok i =>
    let r := check_deeplink env i.db_name i.user_id i.campaign_id i.date i.region upstream
    (.executed r.1, r.2)

/-- One invocation with the mutable process-wide state (the environment
variable, the only process state the function reads) threaded explicitly.
The source reads `os.environ` and local constants only and never writes any
module or process state, so the state comes back unchanged. -/
def invoke (env : Option String) (i : DeeplinkCheckerInput)
    (upstream : HttpRequest → UpstreamOutcome) :
    (PyResult × List HttpRequest) × Option String :=
  (check_deeplink env i.db_name i.user_id i.campaign_id i.date i.region upstream, env)

/-!
Theorems settling the claims.
-/

/-- Claim C2: for every request, if the REFRESH_TOKEN environment variable
is absent or empty, check_deeplink returns the configuration-error message
("Authentication token is not configured on the server.") and issues no
network call. -/
theorem c2_missing_token_no_network_call (refresh_token : Option String)
    (db_name user_id campaign_id date region : String)
    (upstream : HttpRequest → UpstreamOutcome)
    (h : refresh_token = none ∨ refresh_token = some "") :
    check_deeplink refresh_token db_name user_id campaign_id date region upstream
      = (.ret (.str tokenMissingMsg), []) := by
  rcases h with h | h <;> subst h <;> simp [check_deeplink]

/-- Witness for C2: a concrete request with the variable unset. -/
theorem c2_missing_token_no_network_call_witness :
    check_deeplink none "NDTVProfit" "u1" "c1" "2025-09-24" "DC1"
        (fun _ => .transportError "unused")
      = (.ret (.str tokenMissingMsg), []) :=
  c2_missing_token_no_network_call none "NDTVProfit" "u1" "c1" "2025-09-24" "DC1"
    (fun _ => .transportError "unused") (Or.inl rfl)

/-- Claim C6: for every request with a non-empty credential, check_deeplink
issues exactly one POST, to the fixed URL, with headers Content-Type:
application/json and Authorization: Bearer followed by the credential,
timeout 30, and a JSON payload holding exactly the five keys db_name,
user_id, campaign_id, date and region mapped from the equally named request
fields, whatever the upstream then does. -/
theorem c6_single_post_exact_request (tok : String) (h : tok ≠ "")
    (db_name user_id campaign_id date region : String)
    (upstream : HttpRequest → UpstreamOutcome) :
    (check_deeplink (some tok) db_name user_id campaign_id date region upstream).2
      = [⟨CHECK_URL,
          [("Content-Type", "application/json"),
           ("Authorization", "Bearer " ++ tok)],
          [("db_name", db_name), ("user_id", user_id), ("campaign_id", campaign_id),
           ("date", date), ("region", region)],
          30⟩] := by
  simp [check_deeplink, h, buildRequest]

/-- Witness for C6: a concrete request with credential "token123". -/
theorem c6_single_post_exact_request_witness :
    (check_deeplink (some "token123") "NDTVProfit" "u1" "c1" "2025-09-24" "DC1"
        (fun _ => .transportError "unused")).2
      = [⟨CHECK_URL,
          [("Content-Type", "application/json"),
           ("Authorization", "Bearer " ++ "token123")],
          [("db_name", "NDTVProfit"), ("user_id", "u1"), ("campaign_id", "c1"),
           ("date", "2025-09-24"), ("region", "DC1")],
          30⟩] :=
  c6_single_post_exact_request "token123" (by decide) "NDTVProfit" "u1" "c1"
    "2025-09-24" "DC1" (fun _ => .transportError "unused")

/-- Claim C7: for every request with a non-empty credential where the POST
itself fails at transport level (connection refused, timeout, DNS failure),
check_deeplink returns the network-error message embedding the string form
of the underlying exception. -/
theorem c7_transport_failure_network_error (tok : String) (h : tok ≠ "")
    (db_name user_id campaign_id date region cause : String)
    (upstream : HttpRequest → UpstreamOutcome)
    (hu : upstream (buildRequest tok db_name user_id campaign_id date region)
            = .transportError cause) :
    (check_deeplink (some tok) db_name user_id campaign_id date region upstream).1
      = .ret (.str (networkErrorMsg cause)) := by
  simp [check_deeplink, h, hu, handle_outcome]

/-- Witness for C7: a concrete connection-refused failure. -/
theorem c7_transport_failure_network_error_witness :
    (check_deeplink (some "token123") "NDTVProfit" "u1" "c1" "2025-09-24" "DC1"
        (fun _ => .transportError "Connection refused")).1
      = .ret (.str (networkErrorMsg "Connection refused")) :=
  c7_transport_failure_network_error "token123" (by decide) "NDTVProfit" "u1" "c1"
    "2025-09-24" "DC1" "Connection refused"
    (fun _ => .transportError "Connection refused") rfl

/-- Claim C9: check_deeplink retains no state across calls: with the
process state threaded explicitly, an invocation leaves the state
unchanged, and a second invocation run in the state left by the first
produces a structurally identical result (same returned value and same
issued requests). -/
theorem c9_stateless_idempotent (env : Option String) (i : DeeplinkCheckerInput)
    (upstream : HttpRequest → UpstreamOutcome) :
    (invoke env i upstream).2 = env
      ∧ (invoke (invoke env i upstream).2 i upstream).1 = (invoke env i upstream).1 :=
  ⟨rfl, rfl⟩

/-- Claim C1 counterexample: with the credential present and the upstream
returning HTTP 200 with JSON body having status "success" and a data field,
check_deeplink returns the fixed success sentence, which is not the parsed
upstream body (nor its raw text): the body is discarded, refuting the claim
that a success envelope containing the upstream body unchanged is returned. -/
theorem c1_success_body_discarded_counterexample :
    (check_deeplink (some "token123") "NDTVProfit" "u1" "c1" "2025-09-24" "DC1"
        (fun _ => .response 200 "RAWBODY"
          (.ok (.obj [("status", .str "success"), ("data", .str "payload")])))).1
      = .ret (.str successMsg)
    ∧ Json.str successMsg
        ≠ Json.obj [("status", .str "success"), ("data", .str "payload")]
    ∧ successMsg ≠ "RAWBODY" := by
  refine ⟨rfl, by simp, by decide⟩

/-- Claim C1 amended: for every request with a non-empty credential, when
the upstream returns HTTP 200 with a JSON object body whose status field is
the string "success", check_deeplink returns the fixed success sentence
"Urls are matching, your deeplink is working correctly at clients end"; the
upstream body is not included in the result. -/
theorem c1_success_returns_fixed_message (tok : String) (h : tok ≠ "")
    (db_name user_id campaign_id date region text : String)
    (fields : List (String × Json))
    (upstream : HttpRequest → UpstreamOutcome)
    (hu : upstream (buildRequest tok db_name user_id campaign_id date region)
            = .response 200 text (.ok (.obj fields)))
    (hs : isSuccessStatus (dictGet fields "status") = true) :
    (check_deeplink (some tok) db_name user_id campaign_id date region upstream).1
      = .ret (.str successMsg) := by
  simp [check_deeplink, h, hu, handle_outcome, hs]

/-- Witness for the amended C1: a concrete successful exchange. -/
theorem c1_success_returns_fixed_message_witness :
    (check_deeplink (some "token123") "NDTVProfit" "u1" "c1" "2025-09-24" "DC1"
        (fun _ => .response 200 "RAWBODY"
          (.ok (.obj [("status", .str "success")])))).1
      = .ret (.str successMsg) :=
  c1_success_returns_fixed_message "token123" (by decide) "NDTVProfit" "u1" "c1"
    "2025-09-24" "DC1" "RAWBODY" [("status", .str "success")]
    (fun _ => .response 200 "RAWBODY" (.ok (.obj [("status", .str "success")])))
    rfl rfl

/-- Claim C3 counterexample: status 300 is not 2xx, yet raise_for_status
only raises for 400..599, so a 300 response with a JSON object body falls
through to the normal path and check_deeplink returns the unknown-error
default , not an HTTP-error result carrying the status and body. -/
theorem c3_non2xx_counterexample_status_300 :
    (check_deeplink (some "token123") "NDTVProfit" "u1" "c1" "2025-09-24" "DC1"
        (fun _ => .response 300 "REDIRECTBODY" (.ok (.obj [])))).1
      = .ret (.str unknownErrorMsg)
    ∧ unknownErrorMsg ≠ httpErrorMsg 300 "REDIRECTBODY" := by
  refine ⟨rfl, by decide⟩

/-- Claim C3 amended: for every request with a non-empty credential where
the upstream returns an HTTP status in 400..599 (the codes for which
raise_for_status raises, e.g. 401), check_deeplink returns the HTTP-error
message carrying that status code and the raw response body verbatim;
other non-2xx codes (1xx, 3xx) are not treated as HTTP errors. -/
theorem c3_http_error_carries_status_and_body (tok : String) (h : tok ≠ "")
    (db_name user_id campaign_id date region text : String) (statusCode : Nat)
    (hc : 400 ≤ statusCode ∧ statusCode < 600)
    (parsed : Except String Json)
    (upstream : HttpRequest → UpstreamOutcome)
    (hu : upstream (buildRequest tok db_name user_id campaign_id date region)
            = .response statusCode text parsed) :
    (check_deeplink (some tok) db_name user_id campaign_id date region upstream).1
      = .ret (.str (httpErrorMsg statusCode text)) := by
  simp [check_deeplink, h, hu, handle_outcome, hc]

/-- Witness for the amended C3: a concrete 401 with body "Unauthorized". -/
theorem c3_http_error_carries_status_and_body_witness :
    (check_deeplink (some "token123") "NDTVProfit" "u1" "c1" "2025-09-24" "DC1"
        (fun _ => .response 401 "Unauthorized" (.error "Expecting value"))).1
      = .ret (.str (httpErrorMsg 401 "Unauthorized")) :=
  c3_http_error_carries_status_and_body "token123" (by decide) "NDTVProfit" "u1"
    "c1" "2025-09-24" "DC1" "Unauthorized" 401 (by decide) (.error "Expecting value")
    (fun _ => .response 401 "Unauthorized" (.error "Expecting value")) rfl

/-- Claim C4, code bug: on a 2xx response whose body does not parse as
JSON, Response.json() raises requests.exceptions.JSONDecodeError, which is
a RequestException subclass (requests 2.27 and later), so the
RequestException clause at src/server.py:82 catches it first and the
network-error message is returned; the dedicated ValueError handler at
src/server.py:85-87, whose comment says it handles a response that is not
valid JSON, is unreachable for that case and its InvalidResponseError-kind
message is never produced. -/
theorem c4_json_decode_reported_as_network_error :
    (check_deeplink (some "token123") "NDTVProfit" "u1" "c1" "2025-09-24" "DC1"
        (fun _ => .response 200 "not json"
          (.error "Expecting value: line 1 column 1 (char 0)"))).1
      = .ret (.str (networkErrorMsg "Expecting value: line 1 column 1 (char 0)"))
    ∧ networkErrorMsg "Expecting value: line 1 column 1 (char 0)"
        ≠ jsonDecodeFallbackMsg := by
  refine ⟨rfl, by decide⟩

/-- Claim C8, code bug: when the upstream returns HTTP 200 with a body that
parses as a JSON array, response_data.get at src/server.py:74 raises
AttributeError, which no except clause catches: check_deeplink propagates
an unhandled fault instead of returning a value, contradicting its own
docstring ("Returns: A string indicating success or the specific error
message"). -/
theorem c8_array_body_unhandled_attribute_error :
    (check_deeplink (some "token123") "NDTVProfit" "u1" "c1" "2025-09-24" "DC1"
        (fun _ => .response 200 "[1, 2, 3]"
          (.ok (.arr [.num 1, .num 2, .num 3])))).1
      = .unhandled "AttributeError: list object has no attribute get" := rfl

/-- Claim C10: for every request with a non-empty credential where the
upstream returns a 2xx status with a body parsing to a JSON object whose
status field is not the string "success", check_deeplink returns, through
the normal return path, the value of the error_message field when present,
and the fixed unknown-error sentence when absent (the semantics of
dict.get with a default); no error-kind message is produced. -/
theorem c10_semantic_failure_error_message (tok : String) (h : tok ≠ "")
    (db_name user_id campaign_id date region text : String) (statusCode : Nat)
    (hc : 200 ≤ statusCode ∧ statusCode < 300)
    (fields : List (String × Json))
    (upstream : HttpRequest → UpstreamOutcome)
    (hu : upstream (buildRequest tok db_name user_id campaign_id date region)
            = .response statusCode text (.ok (.obj fields)))
    (hs : isSuccessStatus (dictGet fields "status") = false) :
    (check_deeplink (some tok) db_name user_id campaign_id date region upstream).1
      = .ret (dictGetD fields "error_message" (.str unknownErrorMsg)) := by
  have hnot : ¬ (400 ≤ statusCode ∧ statusCode < 600) := by omega
  simp [check_deeplink, h, hu, handle_outcome, hnot, hs]

/-- Witness for C10: a concrete semantic failure with an error_message. -/
theorem c10_semantic_failure_error_message_witness :
    (check_deeplink (some "token123") "NDTVProfit" "u1" "c1" "2025-09-24" "DC1"
        (fun _ => .response 200 "RAWBODY"
          (.ok (.obj [("status", .str "failure"),
                      ("error_message", .str "Deeplink mismatch")])))).1
      = .ret (dictGetD [("status", .str "failure"),
                        ("error_message", .str "Deeplink mismatch")]
               "error_message" (.str unknownErrorMsg)) :=
  c10_semantic_failure_error_message "token123" (by decide) "NDTVProfit" "u1" "c1"
    "2025-09-24" "DC1" "RAWBODY" 200 (by decide)
    [("status", .str "failure"), ("error_message", .str "Deeplink mismatch")]
    (fun _ => .response 200 "RAWBODY"
      (.ok (.obj [("status", .str "failure"),
                  ("error_message", .str "Deeplink mismatch")])))
    rfl rfl

/-- Helper: when validation succeeds, every required field was supplied as
a string. -/
theorem validate_args_ok_fields (args : List (String × Json))
    (i : DeeplinkCheckerInput) (h : validate_args args = .ok i) :
    ∀ f ∈ requiredFields, ∃ s, args.lookup f = some (Json.str s) := by
  intro f hf
  unfold validate_args at h
  split at h
  case _ d u c dt r hd hu2 hc2 hdt hr =>
    fin_cases hf
    · exact ⟨d, hd⟩
    · exact ⟨u, hu2⟩
    · exact ⟨c, hc2⟩
    · exact ⟨dt, hdt⟩
    · exact ⟨r, hr⟩
  case _ => cases h

/-- Claim C5 counterexample: a request supplying every required field but
with db_name empty passes validation and the tool body runs, issuing a
network call: emptiness is not checked, so a request violating the
non-emptiness constraint does not fail validation and the network call
is attempted. -/
theorem c5_empty_field_passes_validation_counterexample :
    validate_args [("db_name", .str ""), ("user_id", .str "u1"),
                   ("campaign_id", .str "c1"), ("date", .str "2025-09-24"),
                   ("region", .str "DC1")]
      = .ok ⟨"", "u1", "c1", "2025-09-24", "DC1"⟩
    ∧ (call_tool (some "token123")
         [("db_name", .str ""), ("user_id", .str "u1"),
          ("campaign_id", .str "c1"), ("date", .str "2025-09-24"),
          ("region", .str "DC1")]
         (fun _ => .transportError "Connection refused")).2
      = [buildRequest "token123" "" "u1" "c1" "2025-09-24" "DC1"] := by
  refine ⟨rfl, rfl⟩

/-- Claim C5 amended: every required field (db_name, user_id, campaign_id,
date, region) must be present: a request missing one fails schema
validation before any network call is attempted, and the validation error
names the offending fields. Emptiness, however, is not enforced: the
declared schema puts no minimum length on the fields, so empty strings
pass validation and are forwarded upstream. -/
theorem c5_missing_field_validation_error (env : Option String)
    (args : List (String × Json))
    (upstream : HttpRequest → UpstreamOutcome)
    (f : String) (hf : f ∈ requiredFields) (hmiss : args.lookup f = none) :
    ∃ fs, call_tool env args upstream = (.validationError fs, []) := by
  cases hv : validate_args args with
  | error fs => exact ⟨fs, by simp [call_tool, hv]⟩
  | ok i =>
    exfalso
    obtain ⟨s, hs⟩ := validate_args_ok_fields args i hv f hf
    rw [hmiss] at hs
    cases hs

/-- Witness for the amended C5: a concrete request missing db_name. -/
theorem c5_missing_field_validation_error_witness :
    ∃ fs, call_tool (some "token123")
        [("user_id", .str "u1"), ("campaign_id", .str "c1"),
         ("date", .str "2025-09-24"), ("region", .str "DC1")]
        (fun _ => .transportError "unused")
      = (.validationError fs, []) :=
  c5_missing_field_validation_error (some "token123")
    [("user_id", .str "u1"), ("campaign_id", .str "c1"),
     ("date", .str "2025-09-24"), ("region", .str "DC1")]
    (fun _ => .transportError "unused") "db_name" (by decide) rfl

end DeeplinkChecker
